import Mathlib

/-!
Verification development for the vbox-monitor repository.

The embedding covers the two source files:
  - VBox/Monitor.cpp : the snapshot store (`Monitor`), its start/stop
    lifecycle, its copy construction, and its four polling tasks, modelled
    as a sequential state machine over `Monitor.State`;
  - VBox/UI.cpp : the dashboard controller (`UI`), its key dispatch,
    memory-viewport scrolling/paging, and the state-relevant part of the
    memory-panel redraw, modelled over `UI.State` with an explicit event
    step function.

Machine integers (`size_t`) are modelled as `Nat`; the source only ever
subtracts under a guard that rules out underflow, so truncated subtraction
agrees with the C++ semantics on every path taken.
-/

namespace VBoxMonitor

/-- A register snapshot: an ordered mapping from register name to value
(`VM::Registers`, external to the two source files; only construction,
copying and equality matter here). -/
abbrev Registers := List (String × Nat)

/-- One stack frame (`VM::StackEntry`): base pointer, return base pointer,
return instruction pointer, four argument words, instruction pointer. -/
structure StackEntry where
  bp : Nat
  retBP : Nat
  retIP : Nat
  arg0 : Nat
  arg1 : Nat
  arg2 : Nat
  arg3 : Nat
  ip : Nat
deriving DecidableEq

/-- A core-dump handle (`VM::CoreDump`): a captured memory image supporting
a size query; modelled by its byte contents. -/
structure CoreDump where
  memory : List Nat
deriving DecidableEq

/-- `CoreDump::memorySize()`: total size of the captured memory image. -/
def CoreDump.memorySize (d : CoreDump) : Nat := d.memory.length

/-- The four polling tasks launched by `Monitor::start` (Monitor.cpp
lines 130-133), used as task-handle tokens for the `_threads` vector. -/
inductive PollTask
  | registers
  | stack
  | memory
  | liveStatus
deriving DecidableEq

/-- The fields of `Monitor::IMPL` (Monitor.cpp lines 46-54).  The
recursive mutex is not represented: all modelled operations are sequential
and each C++ operation holds the lock for its whole critical section. -/
structure Monitor.State where
  vmName : String
  registers : Option Registers
  stack : List StackEntry
  dump : Option CoreDump
  running : Bool
  stopFlag : Bool
  live : Bool
  threads : List PollTask
deriving DecidableEq

/-- `Monitor::IMPL::IMPL(const std::string &)` (Monitor.cpp lines 179-192):
all flags false, snapshots empty, then liveness set true when the VM name
appears in the external list of running VMs. -/
def Monitor.init (vmName : String) (runningVMs : List String) : Monitor.State :=
  { vmName := vmName
    registers := none
    stack := []
    dump := none
    running := false
    stopFlag := false
    live := runningVMs.foldl (fun live info => if info = vmName then true else live) false
    threads := [] }

/-- `Monitor::start` (Monitor.cpp lines 117-140): no-op when already
running; otherwise clears the stop flag, marks running, and pushes the
four polling task handles. -/
def Monitor.start (s : Monitor.State) : Monitor.State :=
  if s.running then s
  else
    { s with
      stopFlag := false
      running := true
      threads := s.threads ++
        [PollTask.registers, PollTask.stack, PollTask.memory, PollTask.liveStatus] }

/-- `Monitor::stop` (Monitor.cpp lines 142-163): moves the task handles
out and sets the stop flag under the lock, joins the moved-out handles,
then marks running false. -/
def Monitor.stop (s : Monitor.State) : Monitor.State :=
  { s with threads := [], stopFlag := true, running := false }

/-- `Monitor::Monitor(const Monitor &)` via
`Monitor::IMPL::IMPL(const IMPL &, const std::lock_guard<...> &)`
(Monitor.cpp lines 194-208): copies the VM name and the three snapshot
fields, and initialises running, stop and live to false with no task
handles. -/
def Monitor.copy (s : Monitor.State) : Monitor.State :=
  { vmName := s.vmName
    registers := s.registers
    stack := s.stack
    dump := s.dump
    running := false
    stopFlag := false
    live := false
    threads := [] }

/-- Accessor `Monitor::live` (Monitor.cpp lines 89-94). -/
def Monitor.live (s : Monitor.State) : Bool := s.live

/-- Accessor `Monitor::registers` (Monitor.cpp lines 96-101). -/
def Monitor.registers (s : Monitor.State) : Option Registers := s.registers

/-- Accessor `Monitor::stack` (Monitor.cpp lines 103-108). -/
def Monitor.stack (s : Monitor.State) : List StackEntry := s.stack

/-- Accessor `Monitor::dump` (Monitor.cpp lines 110-115). -/
def Monitor.dump (s : Monitor.State) : Option CoreDump := s.dump

/-- One external call on a `Monitor`: `start()` or `stop()`. -/
inductive MCall
  | start
  | stop
deriving DecidableEq

/-- Apply one `start`/`stop` call to a monitor state. -/
def applyMCall (s : Monitor.State) : MCall → Monitor.State
  | MCall.start => Monitor.start s
  | MCall.stop => Monitor.stop s

/-- Run a sequence of `start`/`stop` calls from a given state. -/
def runMCalls (s : Monitor.State) (cs : List MCall) : Monitor.State :=
  cs.foldl applyMCall s

/-- What the memory panel rendered on one tick: nothing (terminal too
small), the frame only (dump absent or empty), or frame plus hex/ASCII
body. -/
inductive MemRender
  | skipped
  | frameOnly
  | frameAndBody
deriving DecidableEq

/-- Calls the controller makes on its collaborators, recorded in order. -/
inductive UIAction
  | monitorStart
  | screenStart
  | monitorStop
  | screenStop
deriving DecidableEq

/-- The fields of `UI::IMPL` (UI.cpp lines 52-59) that carry state: the
running flag, the VM name, the composed `Monitor`, and the four
memory-viewport quantities.  The `Screen` member is a collaborator with
no modelled state; calls to it appear as `UIAction`s. -/
structure UI.State where
  running : Bool
  vmName : String
  monitor : Monitor.State
  memoryOffset : Nat
  memoryBytesPerLine : Nat
  memoryLines : Nat
  totalMemory : Nat
deriving DecidableEq

/-- `UI::IMPL::IMPL(const std::string &)` (UI.cpp lines 102-112): running
false, all viewport fields zero, monitor freshly constructed. -/
def UI.init (vmName : String) (runningVMs : List String) : UI.State :=
  { running := false
    vmName := vmName
    monitor := Monitor.init vmName runningVMs
    memoryOffset := 0
    memoryBytesPerLine := 0
    memoryLines := 0
    totalMemory := 0 }

/-- `UI::run` (UI.cpp lines 84-93): returns immediately when the running
flag is set; otherwise starts the monitor, then starts the screen. -/
def UI.run (s : UI.State) : UI.State × List UIAction :=
  if s.running then (s, [])
  else
    ({ s with monitor := Monitor.start s.monitor },
     [UIAction.monitorStart, UIAction.screenStart])

/-- `UI::IMPL::_memoryScrollUp` (UI.cpp lines 375-385): subtract
`bytesPerLine * n` when the offset is strictly greater, else clamp to 0. -/
def UI.memoryScrollUp (s : UI.State) (n : Nat) : UI.State :=
  if s.memoryBytesPerLine * n < s.memoryOffset then
    { s with memoryOffset := s.memoryOffset - s.memoryBytesPerLine * n }
  else
    { s with memoryOffset := 0 }

/-- `UI::IMPL::_memoryScrollDown` (UI.cpp lines 387-393): add
`bytesPerLine * n` only when the result stays strictly below the total
memory size. -/
def UI.memoryScrollDown (s : UI.State) (n : Nat) : UI.State :=
  if s.memoryOffset + s.memoryBytesPerLine * n < s.totalMemory then
    { s with memoryOffset := s.memoryOffset + s.memoryBytesPerLine * n }
  else s

/-- `UI::IMPL::_memoryPageUp` (UI.cpp lines 395-398). -/
def UI.memoryPageUp (s : UI.State) : UI.State :=
  UI.memoryScrollUp s s.memoryLines

/-- `UI::IMPL::_memoryPageDown` (UI.cpp lines 400-403). -/
def UI.memoryPageDown (s : UI.State) : UI.State :=
  UI.memoryScrollDown s s.memoryLines

/-- The size gate of `UI::IMPL::_drawTitle` (UI.cpp lines 173-181): the
title panel has no minimum-size gate. -/
def UI.drawTitleGate (_width _height : Nat) : Bool :=
  true

/-- The size gate of `UI::IMPL::_drawRegisters` (UI.cpp lines 185-188). -/
def UI.drawRegistersGate (width height : Nat) : Bool :=
  !(width < 30 || height < 25)

/-- The size gate of `UI::IMPL::_drawStack` (UI.cpp lines 236-239). -/
def UI.drawStackGate (width height : Nat) : Bool :=
  !(width < 190 || height < 25)

/-- The size gate of `UI::IMPL::_drawMemory` (UI.cpp lines 297-300). -/
def UI.drawMemoryGate (width height : Nat) : Bool :=
  !(width < 30 || height < 35)

/-- The state-relevant part of `UI::IMPL::_drawMemory` (UI.cpp lines
295-373): bail out below the minimum size; when the monitor's dump is
present and non-empty, refresh `totalMemory` from the dump size and
recompute `bytesPerLine = (width-4)/4 - 5` and `lines = height-29` from
the terminal dimensions, then render the body; otherwise draw only the
frame and leave the viewport fields untouched. -/
def UI.drawMemory (s : UI.State) (width height : Nat) : UI.State × MemRender :=
  if width < 30 ∨ height < 35 then (s, MemRender.skipped)
  else
    match s.monitor.dump with
    | some d =>
      if 0 < d.memorySize then
        ({ s with
           totalMemory := d.memorySize
           memoryBytesPerLine := (width - 4) / 4 - 5
           memoryLines := height - 29 },
         MemRender.frameAndBody)
      else (s, MemRender.frameOnly)
    | none => (s, MemRender.frameOnly)

/-- The `onKeyPress` handler installed by `UI::IMPL::_setup` (UI.cpp
lines 140-170), returning the new state and the collaborator calls made. -/
def UI.onKeyPress (s : UI.State) (key : Char) : UI.State × List UIAction :=
  if key = 'q' then
    ({ s with monitor := Monitor.stop s.monitor },
     [UIAction.monitorStop, UIAction.screenStop])
  else if key = 'a' then (UI.memoryScrollUp s 1, [])
  else if key = 's' then (UI.memoryScrollDown s 1, [])
  else if key = 'd' then (UI.memoryPageUp s, [])
  else if key = 'f' then (UI.memoryPageDown s, [])
  else if key = 'g' then ({ s with memoryOffset := 0 }, [])
  else (s, [])

/-- Events that mutate controller state: a key press, a render tick of
the memory panel at given terminal dimensions, and the memory polling
task storing a freshly captured dump into the monitor (Monitor.cpp
lines 282-290). -/
inductive UIEvent
  | key (c : Char)
  | draw (width height : Nat)
  | pollDump (d : Option CoreDump)
deriving DecidableEq

/-- Apply one event to the controller state. -/
def UI.step (s : UI.State) : UIEvent → UI.State
  | UIEvent.key c => (UI.onKeyPress s c).1
  | UIEvent.draw w h => (UI.drawMemory s w h).1
  | UIEvent.pollDump d => { s with monitor := { s.monitor with dump := d } }

/-- The controller state reached from a fresh controller by a sequence of
events. -/
def UI.reach (vmName : String) (runningVMs : List String) (es : List UIEvent) : UI.State :=
  es.foldl UI.step (UI.init vmName runningVMs)

/-- The spec's viewport invariant: the offset lies in `[0, totalMemory)`
when `totalMemory > 0`, and equals 0 when `totalMemory = 0`. -/
def UI.viewportInv (s : UI.State) : Prop :=
  (s.totalMemory = 0 → s.memoryOffset = 0) ∧
  (0 < s.totalMemory → s.memoryOffset < s.totalMemory)

instance (s : UI.State) : Decidable (UI.viewportInv s) := by
  unfold UI.viewportInv
  exact inferInstance

/-- A 100-byte core dump used as a concrete test image. -/
def dump100 : CoreDump := ⟨List.replicate 100 0⟩

/-- A 5-byte core dump used as a concrete test image. -/
def dump5 : CoreDump := ⟨List.replicate 5 0⟩

/-- A concrete viewport state with 16 bytes per line over a 100-byte
image, as in the spec's worked example. -/
def uiEx : UI.State :=
  { running := false
    vmName := "vm"
    monitor := Monitor.init "vm" []
    memoryOffset := 0
    memoryBytesPerLine := 16
    memoryLines := 0
    totalMemory := 100 }

/-- `Monitor.start` always leaves the store running: either it was
already running and is unchanged, or the else-branch sets the flag. -/
theorem Monitor.start_running (s : Monitor.State) : (Monitor.start s).running = true := by
  unfold Monitor.start
  split
  · assumption
  · rfl

/-- After any call, the running flag records whether that call was a
`start`. -/
theorem applyMCall_running (s : Monitor.State) (c : MCall) :
    (applyMCall s c).running = decide (c = MCall.start) := by
  cases c
  · simpa [applyMCall] using Monitor.start_running s
  · simp [applyMCall, Monitor.stop]

/-- The running flag after a call sequence is determined by the last
call (or the initial flag when there is none). -/
theorem runMCalls_running (s : Monitor.State) (cs : List MCall) :
    (runMCalls s cs).running =
      (match cs.getLast? with
       | none => s.running
       | some c => decide (c = MCall.start)) := by
  induction cs generalizing s with
  | nil => rfl
  | cons c cs ih =>
    cases cs with
    | nil => exact applyMCall_running s c
    | cons c2 cs2 =>
      have hstep : runMCalls s (c :: c2 :: cs2) = runMCalls (applyMCall s c) (c2 :: cs2) := rfl
      rw [hstep, ih, List.getLast?_cons_cons]
      cases hl : (c2 :: cs2).getLast? with
      | none => simp at hl
      | some c3 => rfl

/-- Claim C1: for every sequence of `start`/`stop` calls on a fresh
monitor, the store is running exactly when the last call was a `start`;
`start` on a running store is a no-op; `start` on a stopped store clears
the stop flag, marks running, and appends the four polling task handles
while leaving the snapshot fields alone; `stop` empties the task-handle
vector, sets the stop flag, and returns with running false; and a second
`stop` in the stopped state changes nothing. -/
theorem monitor_start_stop_lifecycle (s : Monitor.State) (name : String)
    (vms : List String) (cs : List MCall) :
    (s.running = true → Monitor.start s = s)
    ∧ (s.running = false →
        (Monitor.start s).stopFlag = false
        ∧ (Monitor.start s).running = true
        ∧ (Monitor.start s).threads = s.threads ++
            [PollTask.registers, PollTask.stack, PollTask.memory, PollTask.liveStatus]
        ∧ (Monitor.start s).registers = s.registers
        ∧ (Monitor.start s).stack = s.stack
        ∧ (Monitor.start s).dump = s.dump)
    ∧ ((Monitor.stop s).threads = []
        ∧ (Monitor.stop s).stopFlag = true
        ∧ (Monitor.stop s).running = false)
    ∧ Monitor.stop (Monitor.stop s) = Monitor.stop s
    ∧ (runMCalls (Monitor.init name vms) cs).running =
        decide (cs.getLast? = some MCall.start) := by
  refine ⟨fun h => ?_, fun h => ?_, ?_, ?_, ?_⟩
  · simp [Monitor.start, h]
  · simp [Monitor.start, h]
  · simp [Monitor.stop]
  · simp [Monitor.stop]
  · rw [runMCalls_running]
    cases hcs : cs.getLast? with
    | none => simp [Monitor.init]
    | some c => cases c <;> simp

/-- Concrete exercise of claim C1's theorem: starting an already-started
fresh monitor changes nothing, and after `start; stop; start` the store
is running. -/
theorem monitor_start_stop_lifecycle_witness :
    Monitor.start (Monitor.start (Monitor.init "vm" [])) = Monitor.start (Monitor.init "vm" [])
    ∧ (runMCalls (Monitor.init "vm" [])
        [MCall.start, MCall.stop, MCall.start]).running = true := by
  have h := monitor_start_stop_lifecycle (Monitor.start (Monitor.init "vm" []))
    "vm" [] [MCall.start, MCall.stop, MCall.start]
  refine ⟨h.1 (by decide), ?_⟩
  rw [h.2.2.2.2]
  decide

/-- Claim C4: copy-constructing a monitor from any source, running or
not, yields an instance whose `live()` accessor returns false, that
holds no task handles, whose running and stop flags are false, and whose
`registers()`, `stack()` and `dump()` accessors return the source's
fields at the moment of the copy. -/
theorem monitor_copy_stopped_clone (s : Monitor.State) :
    Monitor.live (Monitor.copy s) = false
    ∧ (Monitor.copy s).threads = []
    ∧ (Monitor.copy s).running = false
    ∧ (Monitor.copy s).stopFlag = false
    ∧ Monitor.registers (Monitor.copy s) = s.registers
    ∧ Monitor.stack (Monitor.copy s) = s.stack
    ∧ Monitor.dump (Monitor.copy s) = s.dump := by
  simp [Monitor.copy, Monitor.live, Monitor.registers, Monitor.stack, Monitor.dump]

/-- Counterexample to claim C5: a monitor constructed for a VM that is
currently running has `live = true`, but its copy has `live = false`, so
copy construction does not copy the liveness flag. -/
theorem monitor_copy_live_counterexample :
    Monitor.live (Monitor.init "vm" ["vm"]) = true
    ∧ Monitor.live (Monitor.copy (Monitor.init "vm" ["vm"])) = false
    ∧ Monitor.live (Monitor.copy (Monitor.init "vm" ["vm"]))
        ≠ Monitor.live (Monitor.init "vm" ["vm"]) := by
  decide

/-- Claim C5 (amended): copy construction copies the VM name and the
three snapshot data fields — register snapshot, stack snapshot,
core-dump handle — and nothing else: the liveness flag is reset to
false, the running and stop flags are false, and no task handles are
copied. -/
theorem monitor_copy_fields (s : Monitor.State) :
    (Monitor.copy s).vmName = s.vmName
    ∧ (Monitor.copy s).registers = s.registers
    ∧ (Monitor.copy s).stack = s.stack
    ∧ (Monitor.copy s).dump = s.dump
    ∧ (Monitor.copy s).live = false
    ∧ (Monitor.copy s).running = false
    ∧ (Monitor.copy s).stopFlag = false
    ∧ (Monitor.copy s).threads = [] := by
  simp [Monitor.copy]

/-- The offset computed by a scroll-up, as a single conditional. -/
theorem memoryScrollUp_offset (s : UI.State) (n : Nat) :
    (UI.memoryScrollUp s n).memoryOffset =
      if s.memoryBytesPerLine * n < s.memoryOffset then
        s.memoryOffset - s.memoryBytesPerLine * n
      else 0 := by
  unfold UI.memoryScrollUp
  split <;> simp_all

/-- Scroll-up changes only the offset: the total-memory field is kept. -/
theorem memoryScrollUp_totalMemory (s : UI.State) (n : Nat) :
    (UI.memoryScrollUp s n).totalMemory = s.totalMemory := by
  unfold UI.memoryScrollUp
  split <;> rfl

/-- The offset computed by a scroll-down, as a single conditional. -/
theorem memoryScrollDown_offset (s : UI.State) (n : Nat) :
    (UI.memoryScrollDown s n).memoryOffset =
      if s.memoryOffset + s.memoryBytesPerLine * n < s.totalMemory then
        s.memoryOffset + s.memoryBytesPerLine * n
      else s.memoryOffset := by
  unfold UI.memoryScrollDown
  split <;> simp_all

/-- Scroll-down changes only the offset: the total-memory field is kept. -/
theorem memoryScrollDown_totalMemory (s : UI.State) (n : Nat) :
    (UI.memoryScrollDown s n).totalMemory = s.totalMemory := by
  unfold UI.memoryScrollDown
  split <;> rfl

/-- Claim C2: with bytes-per-line `P` and total size `T`,
`scrollDown n` adds `P*n` to the offset exactly when the sum stays
strictly below `T` and otherwise changes nothing; `scrollUp n`
subtracts `P*n` when the difference stays non-negative (in `Nat`:
`P*n ≤ offset`) and otherwise clamps the offset to 0; and the spec's
worked example with `P = 16`, `T = 100` produces offsets
0, 16, 96, 96, 80, 0. -/
theorem memory_scroll_correct (s : UI.State) (n : Nat) :
    (s.memoryOffset + s.memoryBytesPerLine * n < s.totalMemory →
      (UI.memoryScrollDown s n).memoryOffset =
        s.memoryOffset + s.memoryBytesPerLine * n)
    ∧ (¬ s.memoryOffset + s.memoryBytesPerLine * n < s.totalMemory →
      UI.memoryScrollDown s n = s)
    ∧ (s.memoryBytesPerLine * n ≤ s.memoryOffset →
      (UI.memoryScrollUp s n).memoryOffset =
        s.memoryOffset - s.memoryBytesPerLine * n)
    ∧ (s.memoryOffset < s.memoryBytesPerLine * n →
      (UI.memoryScrollUp s n).memoryOffset = 0)
    ∧ (((fun t => UI.memoryScrollDown t 1)^[1] uiEx).memoryOffset = 16
       ∧ ((fun t => UI.memoryScrollDown t 1)^[6] uiEx).memoryOffset = 96
       ∧ ((fun t => UI.memoryScrollDown t 1)^[7] uiEx).memoryOffset = 96
       ∧ (UI.memoryScrollUp ((fun t => UI.memoryScrollDown t 1)^[7] uiEx) 1).memoryOffset = 80
       ∧ ((UI.onKeyPress
            (UI.memoryScrollUp ((fun t => UI.memoryScrollDown t 1)^[7] uiEx) 1)
            'g').1).memoryOffset = 0) := by
  refine ⟨fun h => ?_, fun h => ?_, fun h => ?_, fun h => ?_, by decide⟩
  · rw [memoryScrollDown_offset, if_pos h]
  · unfold UI.memoryScrollDown
    rw [if_neg h]
  · rw [memoryScrollUp_offset]
    split <;> omega
  · rw [memoryScrollUp_offset, if_neg (by omega)]

/-- Concrete exercise of claim C2's theorem on the worked example: the
first scroll-down moves the offset from 0 to 16, and a scroll-up at
offset 0 clamps to 0. -/
theorem memory_scroll_correct_witness :
    (UI.memoryScrollDown uiEx 1).memoryOffset =
      uiEx.memoryOffset + uiEx.memoryBytesPerLine * 1
    ∧ (UI.memoryScrollUp uiEx 1).memoryOffset = 0 := by
  have h := memory_scroll_correct uiEx 1
  exact ⟨h.1 (by decide), h.2.2.2.1 (by decide)⟩

/-- Scroll-up preserves the viewport invariant. -/
theorem memoryScrollUp_viewportInv (s : UI.State) (n : Nat)
    (h : UI.viewportInv s) : UI.viewportInv (UI.memoryScrollUp s n) := by
  obtain ⟨h0, hlt⟩ := h
  constructor
  · intro hT
    rw [memoryScrollUp_totalMemory] at hT
    rw [memoryScrollUp_offset]
    have := h0 hT
    split <;> omega
  · intro hT
    rw [memoryScrollUp_totalMemory] at hT
    rw [memoryScrollUp_offset, memoryScrollUp_totalMemory]
    have := hlt hT
    split <;> omega

/-- Scroll-down preserves the viewport invariant. -/
theorem memoryScrollDown_viewportInv (s : UI.State) (n : Nat)
    (h : UI.viewportInv s) : UI.viewportInv (UI.memoryScrollDown s n) := by
  obtain ⟨h0, hlt⟩ := h
  constructor
  · intro hT
    rw [memoryScrollDown_totalMemory] at hT
    rw [memoryScrollDown_offset]
    have := h0 hT
    split <;> omega
  · intro hT
    rw [memoryScrollDown_totalMemory] at hT
    rw [memoryScrollDown_offset, memoryScrollDown_totalMemory]
    have := hlt hT
    split <;> omega

/-- Every key press preserves the viewport invariant. -/
theorem onKeyPress_viewportInv (s : UI.State) (c : Char)
    (h : UI.viewportInv s) : UI.viewportInv (UI.onKeyPress s c).1 := by
  unfold UI.onKeyPress
  split
  · exact h
  · split
    · exact memoryScrollUp_viewportInv s 1 h
    · split
      · exact memoryScrollDown_viewportInv s 1 h
      · split
        · exact memoryScrollUp_viewportInv s s.memoryLines h
        · split
          · exact memoryScrollDown_viewportInv s s.memoryLines h
          · split
            · exact ⟨fun _ => rfl, fun hT => hT⟩
            · exact h

/-- A memory-panel redraw preserves the viewport invariant provided the
dump it refreshes `totalMemory` from (when present and non-empty) is
still larger than the current offset. -/
theorem drawMemory_viewportInv (s : UI.State) (w h : Nat)
    (hInv : UI.viewportInv s)
    (hd : ∀ d, s.monitor.dump = some d → 0 < d.memorySize →
      s.memoryOffset < d.memorySize) :
    UI.viewportInv (UI.drawMemory s w h).1 := by
  unfold UI.drawMemory
  split
  · exact hInv
  · split
    · rename_i d hdump
      split
      · rename_i hsz
        refine ⟨fun hT => ?_, fun _ => ?_⟩
        · exact absurd (show d.memorySize = 0 from hT) (by omega)
        · exact show s.memoryOffset < d.memorySize from hd d hdump hsz
      · exact hInv
    · exact hInv

/-- Counterexample to claim C3: from a fresh controller, deliver a
100-byte dump, redraw at 30x35 (bytes-per-line 1, 6 visible lines,
total 100), page down to offset 6, then deliver a 5-byte dump and
redraw again: `totalMemory` becomes 5 while the offset stays 6, so the
offset no longer lies in `[0, totalMemory)`. -/
theorem viewport_offset_counterexample :
    ¬ UI.viewportInv (UI.reach "vm" []
      [UIEvent.pollDump (some dump100), UIEvent.draw 30 35, UIEvent.key 'f',
       UIEvent.pollDump (some dump5), UIEvent.draw 30 35]) := by
  decide

/-- Claim C3 (amended): the viewport invariant — offset in
`[0, totalMemory)` when `totalMemory > 0`, offset 0 when
`totalMemory = 0` — holds in the initial controller state and is
preserved by every key press, every dump delivery, and every
memory-panel redraw whose refreshed dump (when present and non-empty)
is still larger than the current offset; a redraw that shrinks
`totalMemory` to at most the current offset can violate it. -/
theorem viewport_offset_invariant (name : String) (vms : List String)
    (s : UI.State) (e : UIEvent) (hInv : UI.viewportInv s)
    (hdraw : ∀ w h, e = UIEvent.draw w h →
      ∀ d, s.monitor.dump = some d → 0 < d.memorySize →
        s.memoryOffset < d.memorySize) :
    UI.viewportInv (UI.init name vms) ∧ UI.viewportInv (UI.step s e) := by
  constructor
  · exact ⟨fun _ => rfl, fun hT => absurd hT (by simp [UI.init])⟩
  · cases e with
    | key c => exact onKeyPress_viewportInv s c hInv
    | draw w h => exact drawMemory_viewportInv s w h hInv (hdraw w h rfl)
    | pollDump d => exact hInv

/-- Concrete exercise of claim C3's amended theorem: a fresh controller
satisfies the invariant, and pressing `s` keeps it. -/
theorem viewport_offset_invariant_witness :
    UI.viewportInv (UI.init "vm" [])
    ∧ UI.viewportInv (UI.step (UI.init "vm" []) (UIEvent.key 's')) := by
  have h := viewport_offset_invariant "vm" [] (UI.init "vm" []) (UIEvent.key 's')
    (by decide) (fun w hh hcontra => by cases hcontra)
  exact h

/-- Claim C6: `run()` is a no-op when the controller's running flag is
set; otherwise it starts the snapshot store and then starts the screen
driver, in that order. -/
theorem ui_run_idempotent (s : UI.State) :
    (s.running = true → UI.run s = (s, []))
    ∧ (s.running = false →
        UI.run s = ({ s with monitor := Monitor.start s.monitor },
          [UIAction.monitorStart, UIAction.screenStart])) := by
  constructor
  · intro h
    simp [UI.run, h]
  · intro h
    simp [UI.run, h]

/-- Concrete exercise of claim C6's theorem: running a fresh controller
starts the store, then the screen. -/
theorem ui_run_idempotent_witness :
    (UI.run (UI.init "vm" [])).2 = [UIAction.monitorStart, UIAction.screenStart] := by
  have h := (ui_run_idempotent (UI.init "vm" [])).2 rfl
  rw [h]

/-- Counterexample to claim C7: after a redraw at 64x35 over a 100-byte
dump, `bytesPerLine` is 10; delivering an absent dump and redrawing at
30x35 draws only the frame and leaves `bytesPerLine` at 10 instead of
recomputing `(30-4)/4 - 5 = 1` — so the viewport geometry is not
recomputed on every render tick. -/
theorem drawMemory_recompute_counterexample :
    (UI.drawMemory (UI.reach "vm" []
        [UIEvent.pollDump (some dump100), UIEvent.draw 64 35,
         UIEvent.pollDump none]) 30 35).2 = MemRender.frameOnly
    ∧ (UI.drawMemory (UI.reach "vm" []
        [UIEvent.pollDump (some dump100), UIEvent.draw 64 35,
         UIEvent.pollDump none]) 30 35).1.memoryBytesPerLine ≠ (30 - 4) / 4 - 5 := by
  decide

/-- Claim C7 (amended): on a render tick at terminal size `w`x`h` with
`w ≥ 30` and `h ≥ 35`, if the dump is present and non-empty the memory
panel recomputes `bytesPerLine = (w-4)/4 - 5` and `lines = h-29` from
the terminal dimensions, refreshes `totalMemory` from the dump size,
and draws frame and body; if the dump is absent or empty it draws only
the frame and leaves all viewport fields unchanged; below the minimum
size it draws nothing and changes nothing. -/
theorem drawMemory_recompute (s : UI.State) (w h : Nat) :
    (¬ (w < 30 ∨ h < 35) → ∀ d, s.monitor.dump = some d → 0 < d.memorySize →
      UI.drawMemory s w h =
        ({ s with
           totalMemory := d.memorySize
           memoryBytesPerLine := (w - 4) / 4 - 5
           memoryLines := h - 29 }, MemRender.frameAndBody))
    ∧ (¬ (w < 30 ∨ h < 35) →
        (s.monitor.dump = none ∨ ∃ d, s.monitor.dump = some d ∧ d.memorySize = 0) →
        UI.drawMemory s w h = (s, MemRender.frameOnly))
    ∧ ((w < 30 ∨ h < 35) → UI.drawMemory s w h = (s, MemRender.skipped)) := by
  refine ⟨fun hgate d hd hsz => ?_, fun hgate hd => ?_, fun hgate => ?_⟩
  · unfold UI.drawMemory
    rw [if_neg hgate, hd]
    simp [hsz]
  · unfold UI.drawMemory
    rw [if_neg hgate]
    rcases hd with hd | ⟨d, hd, hsz⟩
    · rw [hd]
    · rw [hd]
      simp [CoreDump.memorySize] at hsz
      simp [CoreDump.memorySize, hsz]
  · unfold UI.drawMemory
    rw [if_pos hgate]

/-- Concrete exercise of claim C7's amended theorem: at 30x35 over a
100-byte dump the recomputed geometry is 1 byte per line and 6 lines. -/
theorem drawMemory_recompute_witness :
    UI.drawMemory (UI.step (UI.init "vm" []) (UIEvent.pollDump (some dump100))) 30 35 =
      ({ UI.step (UI.init "vm" []) (UIEvent.pollDump (some dump100)) with
         totalMemory := dump100.memorySize
         memoryBytesPerLine := (30 - 4) / 4 - 5
         memoryLines := 35 - 29 }, MemRender.frameAndBody) := by
  have h := (drawMemory_recompute
    (UI.step (UI.init "vm" []) (UIEvent.pollDump (some dump100))) 30 35).1
  exact h (by decide) dump100 rfl (by decide)

/-- Claim C8: the key callback dispatches `q` to stop the store and then
the screen, `a`/`s` to one-line scrolls, `d`/`f` to full-page scrolls by
the current visible line count, `g` to an offset reset, and leaves the
state untouched on any other key. -/
theorem ui_key_dispatch (s : UI.State) (k : Char) :
    UI.onKeyPress s 'q' =
      ({ s with monitor := Monitor.stop s.monitor },
       [UIAction.monitorStop, UIAction.screenStop])
    ∧ UI.onKeyPress s 'a' = (UI.memoryScrollUp s 1, [])
    ∧ UI.onKeyPress s 's' = (UI.memoryScrollDown s 1, [])
    ∧ UI.onKeyPress s 'd' = (UI.memoryPageUp s, [])
    ∧ UI.onKeyPress s 'f' = (UI.memoryPageDown s, [])
    ∧ UI.memoryPageUp s = UI.memoryScrollUp s s.memoryLines
    ∧ UI.memoryPageDown s = UI.memoryScrollDown s s.memoryLines
    ∧ UI.onKeyPress s 'g' = ({ s with memoryOffset := 0 }, [])
    ∧ (k ≠ 'q' → k ≠ 'a' → k ≠ 's' → k ≠ 'd' → k ≠ 'f' → k ≠ 'g' →
        UI.onKeyPress s k = (s, [])) := by
  refine ⟨rfl, rfl, rfl, rfl, rfl, rfl, rfl, rfl, fun h1 h2 h3 h4 h5 h6 => ?_⟩
  simp [UI.onKeyPress, h1, h2, h3, h4, h5, h6]

/-- Concrete exercise of claim C8's theorem: a key outside the bindings
leaves a fresh controller unchanged and calls no collaborator. -/
theorem ui_key_dispatch_witness :
    UI.onKeyPress (UI.init "vm" []) 'x' = (UI.init "vm" [], []) := by
  have h := (ui_key_dispatch (UI.init "vm" []) 'x').2.2.2.2.2.2.2.2
  exact h (by decide) (by decide) (by decide) (by decide) (by decide) (by decide)

/-- Claim C9: each panel's size gate matches the source thresholds —
registers needs width ≥ 30 and height ≥ 25, stack needs width ≥ 190 and
height ≥ 25, memory needs width ≥ 30 and height ≥ 35, and the memory
redraw draws nothing exactly when its gate fails; at 20x30 only the
title panel is drawn, and at 200x40 the registers, stack and memory
panels are all eligible. -/
theorem panel_size_gates (w h : Nat) (s : UI.State) :
    (UI.drawRegistersGate w h = true ↔ 30 ≤ w ∧ 25 ≤ h)
    ∧ (UI.drawStackGate w h = true ↔ 190 ≤ w ∧ 25 ≤ h)
    ∧ (UI.drawMemoryGate w h = true ↔ 30 ≤ w ∧ 35 ≤ h)
    ∧ ((UI.drawMemory s w h).2 = MemRender.skipped ↔ UI.drawMemoryGate w h = false)
    ∧ (UI.drawTitleGate 20 30 = true
       ∧ UI.drawRegistersGate 20 30 = false
       ∧ UI.drawStackGate 20 30 = false
       ∧ UI.drawMemoryGate 20 30 = false)
    ∧ (UI.drawRegistersGate 200 40 = true
       ∧ UI.drawStackGate 200 40 = true
       ∧ UI.drawMemoryGate 200 40 = true) := by
  refine ⟨?_, ?_, ?_, ?_, by decide, by decide⟩
  · simp [UI.drawRegistersGate]
  · simp [UI.drawStackGate]
  · simp [UI.drawMemoryGate]
  · unfold UI.drawMemory UI.drawMemoryGate
    split
    · rename_i hgate
      simp
      omega
    · rename_i hgate
      split
      · split <;> simp <;> omega
      · simp
        omega

/-- A fresh controller has all four viewport fields equal to 0. -/
theorem ui_init_viewport_zero (name : String) (vms : List String) :
    (UI.init name vms).memoryBytesPerLine = 0
    ∧ (UI.init name vms).memoryLines = 0
    ∧ (UI.init name vms).totalMemory = 0
    ∧ (UI.init name vms).memoryOffset = 0 := by
  simp [UI.init]

/-- Claim C10: while the stored bytes-per-line, line count and total
memory size are still their initial value 0 (and the offset is 0, as
initially), the scroll keys `a`, `s` and the page keys `d`, `f` leave
the viewport offset unchanged. -/
theorem scroll_keys_noop_before_first_draw (s : UI.State)
    (hP : s.memoryBytesPerLine = 0) (_hL : s.memoryLines = 0)
    (hT : s.totalMemory = 0) (hO : s.memoryOffset = 0) :
    (UI.onKeyPress s 'a').1.memoryOffset = s.memoryOffset
    ∧ (UI.onKeyPress s 's').1.memoryOffset = s.memoryOffset
    ∧ (UI.onKeyPress s 'd').1.memoryOffset = s.memoryOffset
    ∧ (UI.onKeyPress s 'f').1.memoryOffset = s.memoryOffset := by
  have ha : (UI.onKeyPress s 'a').1 = UI.memoryScrollUp s 1 := rfl
  have hs : (UI.onKeyPress s 's').1 = UI.memoryScrollDown s 1 := rfl
  have hd : (UI.onKeyPress s 'd').1 = UI.memoryScrollUp s s.memoryLines := rfl
  have hf : (UI.onKeyPress s 'f').1 = UI.memoryScrollDown s s.memoryLines := rfl
  rw [ha, hs, hd, hf, memoryScrollUp_offset, memoryScrollUp_offset,
    memoryScrollDown_offset, memoryScrollDown_offset]
  refine ⟨?_, ?_, ?_, ?_⟩ <;> split <;> omega

/-- Concrete exercise of claim C10's theorem: on a fresh controller the
four scroll keys keep the offset at 0. -/
theorem scroll_keys_noop_before_first_draw_witness :
    (UI.onKeyPress (UI.init "vm" []) 'a').1.memoryOffset = (UI.init "vm" []).memoryOffset
    ∧ (UI.onKeyPress (UI.init "vm" []) 's').1.memoryOffset = (UI.init "vm" []).memoryOffset
    ∧ (UI.onKeyPress (UI.init "vm" []) 'd').1.memoryOffset = (UI.init "vm" []).memoryOffset
    ∧ (UI.onKeyPress (UI.init "vm" []) 'f').1.memoryOffset = (UI.init "vm" []).memoryOffset := by
  exact scroll_keys_noop_before_first_draw (UI.init "vm" []) rfl rfl rfl rfl

end VBoxMonitor
